import Mathlib

/-!
Shallow embedding of `rpc.go` from yogihardi/paho-mqtt-rpc.

The file models the correlation/dispatch core of the MQTT v5 RPC handler:

* the mutex-protected registry `correlData : map[string]chan *paho.Publish`
  (each mutex-protected method body is one atomic step here, so the Go map is
  a function `String → Option Chan` and channels are identified by `Nat` ids);
* `Handler.addCorrelID` and `Handler.getCorrelIDChan` (lines 96-111);
* `Handler.Request` (lines 113-142), with the nondeterministic inputs of a
  run (the fresh uuid, the result of `h.c.Publish`, and which arm of the
  `select` fires first) supplied explicitly as a `RequestEnv`;
* `Handler.responseHandler` (lines 144-155), where the unbuffered-channel
  send `rChan <- pb` is modelled by its Go semantics: it completes only when
  a receiver is blocked on the channel, and blocks forever otherwise.

Go `[]byte` values that rpc.go only ever converts to/from `string`
(`CorrelationData`) are modelled as `Option String`, `none` standing for a
nil slice. Only the fields of `paho.Publish` that rpc.go reads or writes are
modelled.
-/

namespace PahoRPC

/-- Error values a `Request` call can return, as distinct kinds:
`ErrRequestTimeout` (rpc.go line 16), the two possible values of `ctx.Err()`
in Go (`context.Canceled`, `context.DeadlineExceeded`), and an error
returned by `h.c.Publish`. -/
inductive GoError where
  | requestTimeout
  | ctxCanceled
  | ctxDeadlineExceeded
  | publishErr (msg : String)
deriving DecidableEq

/-- The cause carried by a fired `ctx.Done()`: `ctx.Err()` is one of the two
context sentinel errors. -/
inductive CtxError where
  | canceled
  | deadlineExceeded
deriving DecidableEq

/-- The Go error value `ctx.Err()` returns for each cause. -/
def CtxError.toGoError : CtxError → GoError
  | .canceled => .ctxCanceled
  | .deadlineExceeded => .ctxDeadlineExceeded

/-- The fields of `paho.PublishProperties` that rpc.go touches.
`CorrelationData` is a `[]byte`; `none` models a nil slice. -/
structure PublishProperties where
  correlationData : Option String
  responseTopic : String
deriving DecidableEq

/-- The fields of `paho.Publish` that rpc.go reads or writes. `properties`
is a `*paho.PublishProperties`; `none` models a nil pointer. -/
structure Publish where
  topic : String
  payload : String
  retain : Bool
  properties : Option PublishProperties
deriving DecidableEq

/-- A `chan *paho.Publish` value, identified by the id it was created with
(`make` hands out fresh ids). -/
abbrev Chan := Nat

/-- The Go map `correlData map[string]chan *paho.Publish`: lookup of an
absent key yields the zero value (a nil channel), modelled `none`. -/
abbrev Registry := String → Option Chan

/-- `make(map[string]chan *paho.Publish)` (line 43). -/
def emptyRegistry : Registry := fun _ => none

/-- `Handler.addCorrelID` (lines 96-101): under the mutex,
`h.correlData[cID] = r`. -/
def addCorrelID (reg : Registry) (cID : String) (r : Chan) : Registry :=
  fun k => if k = cID then some r else reg k

/-- `Handler.getCorrelIDChan` (lines 103-111): under the mutex, read
`h.correlData[cID]` (nil when absent) and `delete(h.correlData, cID)`;
returns the channel read and the map afterwards. -/
def getCorrelIDChan (reg : Registry) (cID : String) : Option Chan × Registry :=
  (reg cID, fun k => if k = cID then none else reg k)

/-- The state of a `Handler` that rpc.go's core logic uses: `h.c.ClientID`,
`h.requestTimeout`, the registry, and the next fresh channel id `make`
will return. -/
structure Handler where
  clientID : String
  requestTimeout : Nat
  correlData : Registry
  nextChan : Chan

/-- Lines 119-125 of `Handler.Request`: allocate `Properties` if nil, then
overwrite `CorrelationData` with the correlation id, `ResponseTopic` with
`fmt.Sprintf("%s/responses", h.c.ClientID)`, and force `Retain = false`.
The two modelled property fields are both overwritten, so the result does
not depend on the caller's previous property values. -/
def prepareMessage (pb : Publish) (cID : String) (clientID : String) : Publish :=
  { topic := pb.topic
    payload := pb.payload
    retain := false
    properties := some { correlationData := some cID
                         responseTopic := clientID ++ "/responses" } }

/-- Which arm of the `select` in lines 132-141 fires first in a given run:
the `time.After(h.requestTimeout)` timer, `ctx.Done()` (with its cause), or
a value arriving on `rChan`. -/
inductive WaitEvent where
  | timeout
  | ctxDone (cause : CtxError)
  | reply (resp : Publish)
deriving DecidableEq

/-- The nondeterministic inputs of one `Request` run: the fresh uuid
(`uuid.New().String()`, line 114), the error result of `h.c.Publish`
(line 127; `none` means publish succeeded), and the `select` arm that
fires first when the wait is reached. -/
structure RequestEnv where
  newCID : String
  publishResult : Option String
  waitEvent : WaitEvent

/-- The value/error pair a `Request` call returns. -/
inductive ReqOutcome where
  | ok (resp : Publish)
  | err (e : GoError)
deriving DecidableEq

/-- Everything observable after one `Request` call: the handler state, the
caller's message after the in-place mutation of lines 119-125 (this same
value is what `h.c.Publish` was handed), and the returned outcome. -/
structure ReqResult where
  handler : Handler
  sentMsg : Publish
  outcome : ReqOutcome

/-- The `select` loop of lines 132-141: every arm returns, so the body
runs once and whichever arm fires first determines the returned pair. -/
def waitOutcome : WaitEvent → ReqOutcome
  | .timeout => .err .requestTimeout
  | .ctxDone cause => .err cause.toGoError
  | .reply resp => .ok resp

/-- `Handler.Request` (lines 113-142). Generates `cID`, makes a fresh
channel, registers it via `addCorrelID`, mutates `pb` in place (lines
119-125), publishes, and — on publish success — resolves by whichever
`select` arm fires first. No branch of lines 127-141 touches `correlData`
or `pb` again, so the post-call handler state and caller-visible message
are the same on every path: only `responseHandler` (via `getCorrelIDChan`)
ever deletes a registry entry. -/
def Request (h : Handler) (pb : Publish) (env : RequestEnv) : ReqResult :=
  let cID := env.newCID
  let rChan := h.nextChan
  let reg1 := addCorrelID h.correlData cID rChan
  let pb1 := prepareMessage pb cID h.clientID
  let h1 : Handler :=
    { clientID := h.clientID
      requestTimeout := h.requestTimeout
      correlData := reg1
      nextChan := h.nextChan + 1 }
  { handler := h1
    sentMsg := pb1
    outcome :=
      match env.publishResult with
      | some msg => ReqOutcome.err (GoError.publishErr msg)
      | none => waitOutcome env.waitEvent }

/-- What one invocation of the router callback does besides mutating the
registry: drop at the nil-properties/nil-correlation guard (line 145), drop
because the looked-up channel is nil (line 150), complete the send
`rChan <- pb` (line 154) because a receiver is blocked on the channel, or
block forever on that send because no receiver is. -/
inductive RouterEffect where
  | dropNoCorrel
  | dropUnknown
  | delivered (ch : Chan)
  | blockedForever (ch : Chan)
deriving DecidableEq

/-- `Handler.responseHandler` (lines 144-155). `receiverWaiting ch` tells
whether a receiver is currently blocked on channel `ch` (the `Request`
call's `select`); the send on the unbuffered channel completes exactly
when one is, and blocks forever otherwise. -/
def responseHandler (reg : Registry) (receiverWaiting : Chan → Bool)
    (pb : Publish) : Registry × RouterEffect :=
  match pb.properties with
  | none => (reg, .dropNoCorrel)
  | some props =>
    match props.correlationData with
    | none => (reg, .dropNoCorrel)
    | some cd =>
      let res := getCorrelIDChan reg cd
      match res.1 with
      | none => (res.2, .dropUnknown)
      | some ch =>
        if receiverWaiting ch then (res.2, .delivered ch)
        else (res.2, .blockedForever ch)

/-- The registry after each call in `calls` has registered its correlation
id and reply channel with `addCorrelID` (order is immaterial when the ids
are distinct). -/
def registryOf : List (String × Chan) → Registry
  | [] => emptyRegistry
  | p :: rest => addCorrelID (registryOf rest) p.1 p.2

/-- A concrete handler state (fresh handler, empty registry) used by the
example runs below. -/
def hEx : Handler :=
  { clientID := "cli", requestTimeout := 200, correlData := emptyRegistry, nextChan := 0 }

/-- A concrete caller message with nil properties used by the example runs
below. -/
def pbEx : Publish :=
  { topic := "t", payload := "ping", retain := false, properties := none }

/-- The post-call handler state: the fresh channel was registered under the
fresh correlation id and nothing later in `Request` touches the map. -/
theorem Request_handler_correlData (h : Handler) (pb : Publish) (env : RequestEnv) :
    (Request h pb env).handler.correlData =
      addCorrelID h.correlData env.newCID h.nextChan := rfl

/-- The caller's message after `Request` returns is the in-place mutation
of lines 119-125, on every path. -/
theorem Request_sentMsg (h : Handler) (pb : Publish) (env : RequestEnv) :
    (Request h pb env).sentMsg = prepareMessage pb env.newCID h.clientID := rfl

/-- The returned outcome: the publish error when publish failed, otherwise
the result of the `select` race. -/
theorem Request_outcome (h : Handler) (pb : Publish) (env : RequestEnv) :
    (Request h pb env).outcome =
      match env.publishResult with
      | some msg => ReqOutcome.err (GoError.publishErr msg)
      | none => waitOutcome env.waitEvent := rfl

/-- With pairwise-distinct correlation ids, the registry built from `calls`
maps `k` to `v` exactly when `(k, v)` is one of the registered pairs. -/
theorem registryOf_eq_some {calls : List (String × Chan)}
    (hids : (calls.map Prod.fst).Nodup) (k : String) (v : Chan) :
    registryOf calls k = some v ↔ (k, v) ∈ calls := by
  induction calls with
  | nil => simp [registryOf, emptyRegistry]
  | cons p rest ih =>
    obtain ⟨pid, pch⟩ := p
    rw [List.map_cons, List.nodup_cons] at hids
    obtain ⟨hp, hrest⟩ := hids
    simp only [registryOf, addCorrelID, List.mem_cons]
    by_cases hk : k = pid
    · subst hk
      simp only [if_pos rfl]
      constructor
      · intro hv
        left
        obtain rfl : pch = v := by injection hv
        rfl
      · rintro (heq | hmem)
        · obtain rfl : v = pch := congrArg Prod.snd heq
          rfl
        · exact absurd (List.mem_map_of_mem Prod.fst hmem) hp
    · rw [if_neg hk, ih hrest]
      constructor
      · intro hmem
        exact Or.inr hmem
      · rintro (heq | hmem)
        · exact absurd (congrArg Prod.fst heq) hk
        · exact hmem

/-- Claim C1: among concurrently outstanding `Request` calls with distinct
correlation ids (and distinct fresh reply channels), the router delivers to
a call's channel only a message whose echoed `CorrelationData` equals that
call's own id — never a reply correlated to a different call. -/
theorem c1_reply_matches_own_call
    (calls : List (String × Chan)) (receiverWaiting : Chan → Bool) (pb : Publish)
    (cID : String) (ch : Chan)
    (hids : (calls.map Prod.fst).Nodup) (hchs : (calls.map Prod.snd).Nodup)
    (hmem : (cID, ch) ∈ calls)
    (hdel : (responseHandler (registryOf calls) receiverWaiting pb).2 =
      RouterEffect.delivered ch) :
    ∃ props, pb.properties = some props ∧ props.correlationData = some cID := by
  cases hpb : pb.properties with
  | none => simp [responseHandler, hpb] at hdel
  | some props =>
    cases hcd : props.correlationData with
    | none => simp [responseHandler, hpb, hcd] at hdel
    | some cd =>
      simp only [responseHandler, hpb, hcd, getCorrelIDChan] at hdel
      cases hreg : registryOf calls cd with
      | none => simp [hreg] at hdel
      | some found =>
        simp only [hreg] at hdel
        have hfound : found = ch := by
          by_cases hw : receiverWaiting found
          · rw [if_pos hw] at hdel
            injection hdel
          · rw [if_neg hw] at hdel
            injection hdel
        subst hfound
        have hcdmem : (cd, found) ∈ calls := (registryOf_eq_some hids cd found).mp hreg
        have hpair : (cd, found) = (cID, found) :=
          List.inj_on_of_nodup_map hchs hcdmem hmem rfl
        have hcds : cd = cID := congrArg Prod.fst hpair
        exact ⟨props, rfl, by rw [hcd, hcds]⟩

/-- Witness for C1 at two concrete calls `("a", 0)` and `("b", 1)` and an
inbound message correlated to `"b"`, delivered to channel 1. -/
theorem c1_reply_matches_own_call_witness :
    (((([("a", 0), ("b", 1)] : List (String × Chan)).map Prod.fst).Nodup) ∧
     ((([("a", 0), ("b", 1)] : List (String × Chan)).map Prod.snd).Nodup) ∧
     (("b", 1) ∈ ([("a", 0), ("b", 1)] : List (String × Chan))) ∧
     ((responseHandler (registryOf [("a", 0), ("b", 1)]) (fun _ => true)
        ⟨"t", "pong", false, some ⟨some "b", "r"⟩⟩).2 = RouterEffect.delivered 1)) ∧
    (∃ props, (⟨"t", "pong", false, some ⟨some "b", "r"⟩⟩ : Publish).properties = some props ∧
      props.correlationData = some "b") := by
  refine ⟨⟨by decide, by decide, by decide, by decide⟩, ?_⟩
  exact c1_reply_matches_own_call [("a", 0), ("b", 1)] (fun _ => true)
    ⟨"t", "pong", false, some ⟨some "b", "r"⟩⟩ "b" 1
    (by decide) (by decide) (by decide) (by decide)

/-- Claim C6: `getCorrelIDChan` (the spec's `takeAndRemove`) looks up and
removes in one atomic step: it returns the mapped channel (nil when the id
is absent), the id is gone afterwards, other ids are untouched, and a
second call for the same id returns nothing — at-most-once delivery. -/
theorem c6_takeAndRemove_at_most_once
    (reg : Registry) (cID k : String) (hk : k ≠ cID) :
    (getCorrelIDChan reg cID).1 = reg cID ∧
    (reg cID = none → (getCorrelIDChan reg cID).1 = none) ∧
    (getCorrelIDChan reg cID).2 cID = none ∧
    (getCorrelIDChan reg cID).2 k = reg k ∧
    (getCorrelIDChan (getCorrelIDChan reg cID).2 cID).1 = none := by
  refine ⟨rfl, fun habs => habs, ?_, ?_, ?_⟩
  · simp [getCorrelIDChan]
  · simp [getCorrelIDChan, hk]
  · simp [getCorrelIDChan]

/-- Witness for C6 on the registry holding only `("a", 3)`, taking `"a"`
and checking the untouched key `"b"`. -/
theorem c6_takeAndRemove_at_most_once_witness :
    ("b" ≠ "a") ∧
    ((getCorrelIDChan (registryOf [("a", 3)]) "a").1 = registryOf [("a", 3)] "a" ∧
     (registryOf [("a", 3)] "a" = none → (getCorrelIDChan (registryOf [("a", 3)]) "a").1 = none) ∧
     (getCorrelIDChan (registryOf [("a", 3)]) "a").2 "a" = none ∧
     (getCorrelIDChan (registryOf [("a", 3)]) "a").2 "b" = registryOf [("a", 3)] "b" ∧
     (getCorrelIDChan (getCorrelIDChan (registryOf [("a", 3)]) "a").2 "a").1 = none) :=
  ⟨by decide, c6_takeAndRemove_at_most_once (registryOf [("a", 3)]) "a" "b" (by decide)⟩

/-- Claim C10: `addCorrelID` maps the registered id to the new channel,
leaves every other id unchanged, and silently replaces a previously
registered channel for the same id rather than failing. -/
theorem c10_register_frame_silent_replace
    (reg : Registry) (cID k : String) (r rPrev : Chan) (hk : k ≠ cID) :
    addCorrelID reg cID r cID = some r ∧
    addCorrelID reg cID r k = reg k ∧
    addCorrelID (addCorrelID reg cID rPrev) cID r cID = some r := by
  refine ⟨?_, ?_, ?_⟩
  · simp [addCorrelID]
  · simp [addCorrelID, hk]
  · simp [addCorrelID]

/-- Witness for C10 registering `"a" ↦ 7` over a previous `"a" ↦ 3`, with
untouched key `"b"`. -/
theorem c10_register_frame_silent_replace_witness :
    ("b" ≠ "a") ∧
    (addCorrelID emptyRegistry "a" 7 "a" = some 7 ∧
     addCorrelID emptyRegistry "a" 7 "b" = emptyRegistry "b" ∧
     addCorrelID (addCorrelID emptyRegistry "a" 3) "a" 7 "a" = some 7) :=
  ⟨by decide, c10_register_frame_silent_replace emptyRegistry "a" "b" 7 3 (by decide)⟩

/-- Claim C7: an inbound message with nil properties, nil correlation data,
or a correlation id absent from the registry is silently discarded: the
effect is one of the two drop outcomes, no channel is delivered to, and the
registry is unchanged at every key. -/
theorem c7_unmatched_inbound_no_effect
    (reg : Registry) (receiverWaiting : Chan → Bool) (pb : Publish)
    (hyp : pb.properties = none ∨
      (∃ props, pb.properties = some props ∧ props.correlationData = none) ∨
      (∃ props cd, pb.properties = some props ∧ props.correlationData = some cd ∧
        reg cd = none)) :
    ((responseHandler reg receiverWaiting pb).2 = RouterEffect.dropNoCorrel ∨
     (responseHandler reg receiverWaiting pb).2 = RouterEffect.dropUnknown) ∧
    (∀ ch, (responseHandler reg receiverWaiting pb).2 ≠ RouterEffect.delivered ch) ∧
    (∀ k, (responseHandler reg receiverWaiting pb).1 k = reg k) := by
  rcases hyp with hnil | ⟨props, hpb, hcd⟩ | ⟨props, cd, hpb, hcd, habs⟩
  · refine ⟨Or.inl ?_, fun ch => ?_, fun k => ?_⟩ <;> simp [responseHandler, hnil]
  · refine ⟨Or.inl ?_, fun ch => ?_, fun k => ?_⟩ <;> simp [responseHandler, hpb, hcd]
  · have heff : (responseHandler reg receiverWaiting pb).2 = RouterEffect.dropUnknown := by
      simp [responseHandler, hpb, hcd, getCorrelIDChan, habs]
    have hreg1 : (responseHandler reg receiverWaiting pb).1 =
        fun k => if k = cd then none else reg k := by
      simp [responseHandler, hpb, hcd, getCorrelIDChan, habs]
    refine ⟨Or.inr heff, fun ch => ?_, fun k => ?_⟩
    · rw [heff]
      intro hcontra
      exact RouterEffect.noConfusion hcontra
    · rw [hreg1]
      by_cases hkcd : k = cd
      · subst hkcd
        simp [habs]
      · simp [hkcd]

/-- Witness for C7 on a message with nil properties against the empty
registry. -/
theorem c7_unmatched_inbound_no_effect_witness :
    ((⟨"t", "x", false, none⟩ : Publish).properties = none ∨
      (∃ props, (⟨"t", "x", false, none⟩ : Publish).properties = some props ∧
        props.correlationData = none) ∨
      (∃ props cd, (⟨"t", "x", false, none⟩ : Publish).properties = some props ∧
        props.correlationData = some cd ∧ emptyRegistry cd = none)) ∧
    (((responseHandler emptyRegistry (fun _ => true) ⟨"t", "x", false, none⟩).2 =
        RouterEffect.dropNoCorrel ∨
      (responseHandler emptyRegistry (fun _ => true) ⟨"t", "x", false, none⟩).2 =
        RouterEffect.dropUnknown) ∧
     (∀ ch, (responseHandler emptyRegistry (fun _ => true) ⟨"t", "x", false, none⟩).2 ≠
        RouterEffect.delivered ch) ∧
     (∀ k, (responseHandler emptyRegistry (fun _ => true) ⟨"t", "x", false, none⟩).1 k =
        emptyRegistry k)) :=
  ⟨Or.inl rfl,
   c7_unmatched_inbound_no_effect emptyRegistry (fun _ => true) ⟨"t", "x", false, none⟩
     (Or.inl rfl)⟩

/-- Counterexample to claim C2: a concrete `Request` run that times out
returns `ErrRequestTimeout`, yet its correlation id is still mapped in the
registry when the call returns — the entry was not removed. -/
theorem c2_timeout_entry_not_removed_cex :
    (Request ⟨"client", 200, emptyRegistry, 0⟩ ⟨"t", "ping", false, none⟩
      ⟨"id1", none, WaitEvent.timeout⟩).outcome = ReqOutcome.err GoError.requestTimeout ∧
    (Request ⟨"client", 200, emptyRegistry, 0⟩ ⟨"t", "ping", false, none⟩
      ⟨"id1", none, WaitEvent.timeout⟩).handler.correlData "id1" ≠ none := by
  refine ⟨rfl, ?_⟩
  intro hcontra
  simp [Request, addCorrelID] at hcontra

/-- Claim C2 amended: on timeout the call returns `ErrRequestTimeout`, but
the registry entry for its correlation id is NOT removed — it still maps
that id to the call's reply channel when the call returns. Nothing in
`Request` deletes it; only a later matching inbound reply would, through
`responseHandler`'s `getCorrelIDChan`. -/
theorem c2_timeout_returns_entry_remains
    (h : Handler) (pb : Publish) (env : RequestEnv)
    (hp : env.publishResult = none) (ht : env.waitEvent = WaitEvent.timeout) :
    (Request h pb env).outcome = ReqOutcome.err GoError.requestTimeout ∧
    (Request h pb env).handler.correlData env.newCID = some h.nextChan := by
  constructor
  · rw [Request_outcome, hp, ht]
    rfl
  · rw [Request_handler_correlData]
    simp [addCorrelID]

/-- Witness for the amended C2 on a concrete fresh handler and a run whose
publish succeeds and whose timer fires first. -/
theorem c2_timeout_returns_entry_remains_witness :
    ((⟨"id9", none, WaitEvent.timeout⟩ : RequestEnv).publishResult = none) ∧
    ((⟨"id9", none, WaitEvent.timeout⟩ : RequestEnv).waitEvent = WaitEvent.timeout) ∧
    ((Request hEx pbEx ⟨"id9", none, WaitEvent.timeout⟩).outcome =
        ReqOutcome.err GoError.requestTimeout ∧
     (Request hEx pbEx ⟨"id9", none, WaitEvent.timeout⟩).handler.correlData "id9" = some 0) :=
  ⟨rfl, rfl, c2_timeout_returns_entry_remains hEx pbEx ⟨"id9", none, WaitEvent.timeout⟩ rfl rfl⟩

/-- Counterexample to claim C3: a concrete `Request` run whose publish
fails returns the publish error, yet the registry entry registered for its
correlation id is still present when the call returns. -/
theorem c3_publish_error_entry_not_removed_cex :
    (Request ⟨"client", 200, emptyRegistry, 0⟩ ⟨"t", "ping", false, none⟩
      ⟨"id1", some "broken pipe", WaitEvent.timeout⟩).outcome =
        ReqOutcome.err (GoError.publishErr "broken pipe") ∧
    (Request ⟨"client", 200, emptyRegistry, 0⟩ ⟨"t", "ping", false, none⟩
      ⟨"id1", some "broken pipe", WaitEvent.timeout⟩).handler.correlData "id1" ≠ none := by
  refine ⟨rfl, ?_⟩
  intro hcontra
  simp [Request, addCorrelID] at hcontra

/-- Claim C3 amended: when publish fails the call returns the publish
error without waiting — the outcome is the same whichever `select` arm
would have fired — but the registry entry is NOT removed: the correlation
id still maps to the call's reply channel when the call returns. -/
theorem c3_publish_error_immediate_no_cleanup
    (h : Handler) (pb : Publish) (env : RequestEnv) (msg : String)
    (hp : env.publishResult = some msg) :
    (Request h pb env).outcome = ReqOutcome.err (GoError.publishErr msg) ∧
    (∀ ev, (Request h pb { env with waitEvent := ev }).outcome =
      ReqOutcome.err (GoError.publishErr msg)) ∧
    (Request h pb env).handler.correlData env.newCID = some h.nextChan := by
  refine ⟨?_, fun ev => ?_, ?_⟩
  · rw [Request_outcome, hp]
  · rw [Request_outcome]
    show (match env.publishResult with
      | some m => ReqOutcome.err (GoError.publishErr m)
      | none => waitOutcome ev) = ReqOutcome.err (GoError.publishErr msg)
    rw [hp]
  · rw [Request_handler_correlData]
    simp [addCorrelID]

/-- Witness for the amended C3 on a concrete run whose publish fails with
message `"broken pipe"`. -/
theorem c3_publish_error_immediate_no_cleanup_witness :
    ((⟨"id9", some "broken pipe", WaitEvent.timeout⟩ : RequestEnv).publishResult =
      some "broken pipe") ∧
    ((Request hEx pbEx ⟨"id9", some "broken pipe", WaitEvent.timeout⟩).outcome =
        ReqOutcome.err (GoError.publishErr "broken pipe") ∧
     (∀ ev, (Request hEx pbEx
        { (⟨"id9", some "broken pipe", WaitEvent.timeout⟩ : RequestEnv) with
          waitEvent := ev }).outcome = ReqOutcome.err (GoError.publishErr "broken pipe")) ∧
     (Request hEx pbEx ⟨"id9", some "broken pipe", WaitEvent.timeout⟩).handler.correlData
        "id9" = some 0) :=
  ⟨rfl, c3_publish_error_immediate_no_cleanup hEx pbEx
    ⟨"id9", some "broken pipe", WaitEvent.timeout⟩ "broken pipe" rfl⟩

/-- Counterexample to claim C4: with a registered entry whose dispatcher
has abandoned the slot (no receiver is blocked on channel 5), the router's
delivery of a matching inbound message blocks forever instead of being a
non-blocking, discard-on-failure write. -/
theorem c4_delivery_blocks_forever_cex :
    (responseHandler (addCorrelID emptyRegistry "x" 5) (fun _ => false)
      ⟨"t", "p", false, some ⟨some "x", "r"⟩⟩).2 = RouterEffect.blockedForever 5 := by
  decide

/-- Claim C4 amended: delivery to a found slot is a plain blocking send on
an unbuffered channel. It completes when the dispatcher is still waiting
on the channel, and otherwise blocks the router's callback path forever —
the message is neither discarded nor delivered. (The registry entry is
removed by the lookup either way.) -/
theorem c4_delivery_is_blocking_send
    (reg : Registry) (receiverWaiting : Chan → Bool) (pb : Publish)
    (props : PublishProperties) (cd : String) (ch : Chan)
    (hpb : pb.properties = some props) (hcd : props.correlationData = some cd)
    (hreg : reg cd = some ch) :
    (responseHandler reg receiverWaiting pb).2 =
      (if receiverWaiting ch then RouterEffect.delivered ch
       else RouterEffect.blockedForever ch) ∧
    (responseHandler reg receiverWaiting pb).1 cd = none := by
  constructor
  · simp only [responseHandler, hpb, hcd, getCorrelIDChan, hreg]
    by_cases hw : receiverWaiting ch = true
    · rw [if_pos hw, if_pos hw]
    · rw [if_neg hw, if_neg hw]
  · simp only [responseHandler, hpb, hcd, getCorrelIDChan, hreg]
    by_cases hw : receiverWaiting ch = true
    · rw [if_pos hw]
      simp
    · rw [if_neg hw]
      simp

/-- Witness for the amended C4: entry `("y", 5)` is registered, no receiver
waits on channel 5, and the send blocks forever. -/
theorem c4_delivery_is_blocking_send_witness :
    ((⟨"t", "p", false, some ⟨some "y", "r"⟩⟩ : Publish).properties =
      some ⟨some "y", "r"⟩) ∧
    ((⟨some "y", "r"⟩ : PublishProperties).correlationData = some "y") ∧
    (addCorrelID emptyRegistry "y" 5 "y" = some 5) ∧
    ((responseHandler (addCorrelID emptyRegistry "y" 5) (fun _ => false)
        ⟨"t", "p", false, some ⟨some "y", "r"⟩⟩).2 =
      (if (fun _ => false : Chan → Bool) 5 then RouterEffect.delivered 5
       else RouterEffect.blockedForever 5) ∧
     (responseHandler (addCorrelID emptyRegistry "y" 5) (fun _ => false)
        ⟨"t", "p", false, some ⟨some "y", "r"⟩⟩).1 "y" = none) :=
  ⟨rfl, rfl, by decide,
   c4_delivery_is_blocking_send (addCorrelID emptyRegistry "y" 5) (fun _ => false)
     ⟨"t", "p", false, some ⟨some "y", "r"⟩⟩ ⟨some "y", "r"⟩ "y" 5 rfl rfl (by decide)⟩

/-- Claim C5: once publish has succeeded, a `Request` call resolves by
exactly one of the three `select` arms — the arriving reply returned as
success, the timer returned as the distinct error `ErrRequestTimeout`, or
the context's cancellation cause — exactly one arm applies to any run, the
three outcome forms are pairwise distinct, and the outcome of a run is
unique (no call returns a result twice). -/
theorem c5_exactly_one_of_three_outcomes
    (h : Handler) (pb : Publish) (env : RequestEnv)
    (hp : env.publishResult = none) :
    ((env.waitEvent = WaitEvent.timeout →
        (Request h pb env).outcome = ReqOutcome.err GoError.requestTimeout) ∧
     (∀ cause, env.waitEvent = WaitEvent.ctxDone cause →
        (Request h pb env).outcome = ReqOutcome.err cause.toGoError) ∧
     (∀ resp, env.waitEvent = WaitEvent.reply resp →
        (Request h pb env).outcome = ReqOutcome.ok resp)) ∧
    (env.waitEvent = WaitEvent.timeout ∨
      (∃ cause, env.waitEvent = WaitEvent.ctxDone cause) ∨
      (∃ resp, env.waitEvent = WaitEvent.reply resp)) ∧
    ((∀ resp, ReqOutcome.ok resp ≠ ReqOutcome.err GoError.requestTimeout) ∧
     (∀ cause : CtxError, ReqOutcome.err cause.toGoError ≠
        ReqOutcome.err GoError.requestTimeout) ∧
     (∀ resp cause, ReqOutcome.ok resp ≠ ReqOutcome.err (CtxError.toGoError cause))) ∧
    (∀ o1 o2 : ReqOutcome, (Request h pb env).outcome = o1 →
      (Request h pb env).outcome = o2 → o1 = o2) := by
  refine ⟨⟨?_, ?_, ?_⟩, ?_, ⟨?_, ?_, ?_⟩, ?_⟩
  · intro ht
    rw [Request_outcome, hp, ht]
    rfl
  · intro cause hc
    rw [Request_outcome, hp, hc]
    rfl
  · intro resp hr
    rw [Request_outcome, hp, hr]
    rfl
  · cases hev : env.waitEvent with
    | timeout => exact Or.inl rfl
    | ctxDone cause => exact Or.inr (Or.inl ⟨cause, rfl⟩)
    | reply resp => exact Or.inr (Or.inr ⟨resp, rfl⟩)
  · intro resp hcontra
    exact ReqOutcome.noConfusion hcontra
  · intro cause
    cases cause <;> intro hcontra <;> simp [CtxError.toGoError] at hcontra
  · intro resp cause hcontra
    exact ReqOutcome.noConfusion hcontra
  · intro o1 o2 h1 h2
    exact h1.symm.trans h2

/-- Witness for C5 on a concrete run whose publish succeeds and whose
timer arm fires first. -/
theorem c5_exactly_one_of_three_outcomes_witness :
    ((⟨"id5", none, WaitEvent.timeout⟩ : RequestEnv).publishResult = none) ∧
    (((⟨"id5", none, WaitEvent.timeout⟩ : RequestEnv).waitEvent = WaitEvent.timeout →
        (Request hEx pbEx ⟨"id5", none, WaitEvent.timeout⟩).outcome =
          ReqOutcome.err GoError.requestTimeout) ∧
     (∀ cause, (⟨"id5", none, WaitEvent.timeout⟩ : RequestEnv).waitEvent =
          WaitEvent.ctxDone cause →
        (Request hEx pbEx ⟨"id5", none, WaitEvent.timeout⟩).outcome =
          ReqOutcome.err cause.toGoError) ∧
     (∀ resp, (⟨"id5", none, WaitEvent.timeout⟩ : RequestEnv).waitEvent =
          WaitEvent.reply resp →
        (Request hEx pbEx ⟨"id5", none, WaitEvent.timeout⟩).outcome =
          ReqOutcome.ok resp)) ∧
    ((⟨"id5", none, WaitEvent.timeout⟩ : RequestEnv).waitEvent = WaitEvent.timeout ∨
      (∃ cause, (⟨"id5", none, WaitEvent.timeout⟩ : RequestEnv).waitEvent =
        WaitEvent.ctxDone cause) ∨
      (∃ resp, (⟨"id5", none, WaitEvent.timeout⟩ : RequestEnv).waitEvent =
        WaitEvent.reply resp)) ∧
    ((∀ resp, ReqOutcome.ok resp ≠ ReqOutcome.err GoError.requestTimeout) ∧
     (∀ cause : CtxError, ReqOutcome.err cause.toGoError ≠
        ReqOutcome.err GoError.requestTimeout) ∧
     (∀ resp cause, ReqOutcome.ok resp ≠ ReqOutcome.err (CtxError.toGoError cause))) ∧
    (∀ o1 o2 : ReqOutcome,
      (Request hEx pbEx ⟨"id5", none, WaitEvent.timeout⟩).outcome = o1 →
      (Request hEx pbEx ⟨"id5", none, WaitEvent.timeout⟩).outcome = o2 → o1 = o2) := by
  have hmain := c5_exactly_one_of_three_outcomes hEx pbEx
    ⟨"id5", none, WaitEvent.timeout⟩ rfl
  exact ⟨rfl, hmain.1, hmain.2.1, hmain.2.2.1, hmain.2.2.2⟩

/-- Claim C8: the published envelope carries the caller's payload
untouched, the freshly generated per-call correlation id in its
correlation-data metadata, and the process-stable reply-to topic
`<ClientID>/responses` in its response-topic metadata — the same reply-to
topic for every call on the same handler. -/
theorem c8_envelope_payload_cid_replyto
    (h : Handler) (pb pb2 : Publish) (env env2 : RequestEnv) :
    (Request h pb env).sentMsg.payload = pb.payload ∧
    (Request h pb env).sentMsg.properties =
      some { correlationData := some env.newCID
             responseTopic := h.clientID ++ "/responses" } ∧
    ((Request h pb env).sentMsg.properties.map PublishProperties.responseTopic =
      (Request h pb2 env2).sentMsg.properties.map PublishProperties.responseTopic) := by
  refine ⟨?_, ?_, ?_⟩ <;>
    simp [Request_sentMsg, prepareMessage]

/-- Claim C9: `Request` mutates the caller's message in place before
publishing, and the mutation is what the caller sees after the call
returns, on every path: `Retain` is forced to `false`, `CorrelationData`
and `ResponseTopic` are overwritten regardless of any values the caller
had set, a properties struct is present even when the caller passed nil,
and the payload and topic are untouched. -/
theorem c9_in_place_mutation_visible
    (h : Handler) (pb : Publish) (env : RequestEnv) :
    (Request h pb env).sentMsg = prepareMessage pb env.newCID h.clientID ∧
    (Request h pb env).sentMsg.retain = false ∧
    ((Request h pb env).sentMsg.properties).isSome = true ∧
    (Request h pb env).sentMsg.properties =
      some { correlationData := some env.newCID
             responseTopic := h.clientID ++ "/responses" } ∧
    (Request h pb env).sentMsg.payload = pb.payload ∧
    (Request h pb env).sentMsg.topic = pb.topic := by
  refine ⟨rfl, ?_, ?_, ?_, ?_, ?_⟩ <;>
    simp [Request_sentMsg, prepareMessage]

end PahoRPC
